import Mathlib

/-!
Verification of the `my-utils-delta-table` wrapper (files
`src/my_utils_delta_table/delta.py` and `src/my_utils_delta_table/s3.py`).

The repository is glue code around the external `deltalake`, `polars`,
`pyarrow` and `boto3` libraries.  The embedding below models each facade
function as a pure Lean function.  Effects are made explicit:

* the outcome of each call is an `Except PyError α` (a raised Python
  exception or a returned value);
* the log statements emitted by the function are collected in order, with
  their level;
* every call into a wrapped library is recorded in an external-call trace,
  so "the underlying write is never reached" and "invoked with identical
  arguments" become statements about that trace.

The behaviour of the external libraries themselves (success or failure of a
network call, the contents of a Delta table on disk, the service-side bucket
list) is not code of this repository; it is passed in as an explicit
parameter (an `Except PyError _` result, a store, a listing function), and
the row-level semantics of the delta-rs `merge` builder is modelled by
`deltaMerge` below, following the documented meaning of the exact three
clauses the code registers.
-/

/-- Python exception values, by the classes the repository's `except`
clauses distinguish: `ValueError` (raised locally by the write facade),
`botocore.exceptions.BotoCoreError` and `botocore.exceptions.ClientError`
(caught by `connect_s3`), and any other `Exception`. -/
inductive PyError where
  | valueError (msg : String)
  | botoCoreError (msg : String)
  | clientError (msg : String)
  | exception (msg : String)
deriving DecidableEq

/-- The message carried by an exception (`str(e)` / `{e}` in the f-strings). -/
def PyError.msg : PyError → String
  | .valueError m => m
  | .botoCoreError m => m
  | .clientError m => m
  | .exception m => m

/-- Whether the exception is caught by `except ValueError`. -/
def PyError.isValueError : PyError → Bool
  | .valueError _ => true
  | _ => false

/-- Whether the exception is caught by `except (BotoCoreError, ClientError)`,
the only handler in `connect_s3`. -/
def PyError.isBotoOrClient : PyError → Bool
  | .botoCoreError _ => true
  | .clientError _ => true
  | _ => false

/-- Logging levels used by the two modules. -/
inductive LogLevel where
  | debug
  | info
  | warning
  | error
deriving DecidableEq

/-- One emitted log record: level and rendered message. -/
structure LogEntry where
  level : LogLevel
  msg : String
deriving DecidableEq

/-- The `storage_options` dict forwarded verbatim to the underlying library;
`none` models the Python default `None`. -/
abbrev StorageOptions := Option (List (String × String))

/-- A cell value in a table row (the claims only need equality on values,
so a single scalar type suffices). -/
abbrev Value := Int

/-- A table row: association list from column name to value.  A column
absent from the list models SQL NULL / a missing field. -/
abbrev Row := List (String × Value)

/-- An in-memory Arrow table (`pyarrow.Table`), reduced to its rows. -/
structure ArrowTable where
  rows : List Row
deriving DecidableEq

/-- An in-memory Polars dataframe (`polars.DataFrame`), reduced to its rows. -/
structure PolarsDF where
  rows : List Row
deriving DecidableEq

/-- `polars.DataFrame.to_arrow()`: the same data as an Arrow table. -/
def PolarsDF.to_arrow (d : PolarsDF) : ArrowTable := ⟨d.rows⟩

/-- `polars.from_arrow(...)`: the same data as a Polars dataframe. -/
def pl_from_arrow (t : ArrowTable) : PolarsDF := ⟨t.rows⟩

/-- The `delta_merge_options` mapping built by `upsert_delta_table`:
predicate string plus the two alias entries. -/
structure MergeOptions where
  predicate : String
  source_alias : String
  target_alias : String
deriving DecidableEq

/-- The merge clauses the delta-rs `TableMerger` builder can register; the
code registers exactly the first three. -/
inductive MergeClause where
  | whenMatchedUpdateAll
  | whenNotMatchedInsertAll
  | whenNotMatchedBySourceDelete
deriving DecidableEq

/-- Descriptive metadata of a Delta table (`DeltaTable.metadata()`), an
opaque object from the wrapper's point of view. -/
structure DeltaMetadata where
  id : String
  name : Option String
  description : Option String
deriving DecidableEq

/-- A Delta table schema (`DeltaTable.schema()`): field names and types. -/
structure DeltaSchema where
  fields : List (String × String)
deriving DecidableEq

/-- A JSON value, the result of `json.loads`. -/
inductive Json where
  | str (s : String)
  | num (n : Int)
  | bool (b : Bool)
  | arr (xs : List Json)
  | obj (kvs : List (String × Json))

/-- `json.loads(dt.schema().to_json())`: the schema serialized to JSON text
and parsed back, i.e. the schema as a JSON-compatible structure (the
serialize-then-parse round trip of the library is collapsed into one
conversion). -/
def schemaToJson (s : DeltaSchema) : Json :=
  .obj [("type", .str "struct"),
        ("fields", .arr (s.fields.map fun f =>
          .obj [("name", .str f.1), ("type", .str f.2),
                ("nullable", .bool true), ("metadata", .obj [])]))]

/-- Service-side state of a Delta table: the committed versions in commit
order (a table with `n` commits is at version `n - 1` and its latest
snapshot is the last element), together with its metadata and schema. -/
structure TableState where
  versions : List ArrowTable
  meta : DeltaMetadata
  schema : DeltaSchema
deriving DecidableEq

/-- A Delta lake: what table, if any, lives at each location string. -/
abbrev DeltaStore := String → Option TableState

/-- A record of one call into a wrapped library, with the arguments the
facade passed. -/
inductive ExtCall where
  | isDeltatableCall (uri : String) (so : StorageOptions)
  | writeDeltalakeCall (path : String) (t : ArrowTable) (mode : String)
      (so : StorageOptions) (pb : Option (List String))
  | deltaTableLoad (path : String) (so : StorageOptions)
  | writeDeltaMergeCall (path : String) (opts : MergeOptions)
      (clauses : List MergeClause) (so : StorageOptions)
  | boto3ClientCall (service ak sk endpoint region : String)
  | listBucketsCall
  | createBucketCall (name : String)
deriving DecidableEq

/-- Observable behaviour of one facade call: returned value or raised
exception, emitted log records in order, and the trace of wrapped-library
calls in order. -/
structure Outcome (α : Type) where
  result : Except PyError α
  logs : List LogEntry
  calls : List ExtCall

/-- Number of records a run logged at error level. -/
def errorLogCount {α : Type} (o : Outcome α) : Nat :=
  (o.logs.filter (fun l => l.level == LogLevel.error)).length

/-- `check_if_deltatable` (delta.py).  Logs the check, forwards to
`DeltaTable.is_deltatable(table_uri=path, storage_options=...)`, logs the
boolean result (info when true, warning when false) and returns it; any
exception from the check is logged at error level and re-raised.  The
outcome of the wrapped call is the `libResult` parameter. -/
def check_if_deltatable (path : String) (storage_options : StorageOptions)
    (libResult : Except PyError Bool) : Outcome Bool :=
  match libResult with
  | .ok b =>
      { result := .ok b
        logs := [⟨.info, "Checking if a Delta table exists at the specified path: " ++ path⟩,
                 if b then
                   ⟨.info, "The path " ++ path ++ " contains a valid Delta table."⟩
                 else
                   ⟨.warning, "The path " ++ path ++ " does not contain a Delta table or it does not exist."⟩]
        calls := [.isDeltatableCall path storage_options] }
  | .error e =>
      { result := .error e
        logs := [⟨.info, "Checking if a Delta table exists at the specified path: " ++ path⟩,
                 ⟨.error, "An error occurred while checking if the path " ++ path ++ " is a Delta table: " ++ e.msg⟩]
        calls := [.isDeltatableCall path storage_options] }

/-- The runtime type of the `table` argument of `write_table_to_deltalake`:
a `pyarrow.Table`, a `polars.DataFrame`, or any other Python value (the
`isinstance` checks of the code distinguish exactly these three cases). -/
inductive TableInput where
  | arrow (t : ArrowTable)
  | polars (d : PolarsDF)
  | other (repr : String)
deriving DecidableEq

/-- The `ValueError` message raised for an unsupported payload type. -/
def writeInvalidMsg : String := "Input table must be an Arrow Table or a Polars DataFrame."

/-- The conversion step of `write_table_to_deltalake`: a dataframe is
converted with `to_arrow()` (flag records that the debug log fires), an
Arrow table passes through, anything else has no conversion. -/
def toArrowInput : TableInput → Option (ArrowTable × Bool)
  | .arrow t => some (t, false)
  | .polars d => some (d.to_arrow, true)
  | .other _ => none

/-- The log records emitted by `write_table_to_deltalake` before the
underlying write: the opening info line, plus the conversion debug line
when the input was a dataframe. -/
def writeStartLogs (wasPolars : Bool) (path mode : String) : List LogEntry :=
  ⟨.info, "Writing Delta table to: " ++ path ++ " with mode: " ++ mode⟩ ::
    (if wasPolars then [⟨.debug, "Converting Polars DataFrame to Arrow Table."⟩] else [])

/-- The error-level message of `write_table_to_deltalake`'s two handlers:
`except ValueError` logs the invalid-input line, `except Exception` logs the
write-failure line with the path. -/
def writeFailMsg (e : PyError) (path : String) : String :=
  if e.isValueError then "Invalid input table: " ++ e.msg
  else "Error writing Delta table to path " ++ path ++ ": " ++ e.msg

/-- `write_table_to_deltalake` (delta.py).  Converts a Polars dataframe to
Arrow; raises `ValueError` (logged, re-raised, and the underlying write
never called) for any other non-Arrow input; otherwise calls
`write_deltalake(path, table, mode=..., storage_options=..., partition_by=...)`,
whose outcome is the `writeResult` parameter, logging success at info level
and any raised exception at error level before re-raising it. -/
def write_table_to_deltalake (table : TableInput) (path : String)
    (storage_options : StorageOptions) (partition_by : Option (List String))
    (mode : String) (writeResult : Except PyError Unit) : Outcome Unit :=
  match toArrowInput table with
  | none =>
      { result := .error (.valueError writeInvalidMsg)
        logs := writeStartLogs false path mode ++
          [⟨.error, "Invalid input table: " ++ writeInvalidMsg⟩]
        calls := [] }
  | some (t, wasPolars) =>
      match writeResult with
      | .ok _ =>
          { result := .ok ()
            logs := writeStartLogs wasPolars path mode ++
              [⟨.info, "Delta table write successful."⟩]
            calls := [.writeDeltalakeCall path t mode storage_options partition_by] }
      | .error e =>
          { result := .error e
            logs := writeStartLogs wasPolars path mode ++ [⟨.error, writeFailMsg e path⟩]
            calls := [.writeDeltalakeCall path t mode storage_options partition_by] }

/-- `DeltaTable(path, storage_options=...)` followed by
`.to_pyarrow_table()`: the latest committed snapshot of the table at
`path`, or a raised exception when no Delta table (no committed version)
lives there. -/
def deltaLoad (store : DeltaStore) (path : String) : Except PyError ArrowTable :=
  match store path with
  | none => .error (.exception ("no delta table at " ++ path))
  | some st =>
      match st.versions.getLast? with
      | none => .error (.exception ("no delta table at " ++ path))
      | some t => .ok t

/-- The value returned by `read_table_in_deltalake`: an Arrow table, or a
Polars dataframe when `to_polars` was set. -/
inductive ReadResult where
  | arrow (t : ArrowTable)
  | polars (d : PolarsDF)
deriving DecidableEq

/-- `read_table_in_deltalake` (delta.py).  Loads the table (outcome of the
load is the `loadResult` parameter, instantiated with `deltaLoad` for a
concrete lake), then either returns the Arrow table unconverted or applies
the single conversion `pl.from_arrow` when `to_polars` is set; any raised
exception is logged at error level and re-raised. -/
def read_table_in_deltalake (path : String) (storage_options : StorageOptions)
    (to_polars : Bool) (loadResult : Except PyError ArrowTable) : Outcome ReadResult :=
  match loadResult with
  | .error e =>
      { result := .error e
        logs := [⟨.info, "Reading Delta table from path: " ++ path⟩,
                 ⟨.error, "Error reading Delta table from path " ++ path ++ ": " ++ e.msg⟩]
        calls := [.deltaTableLoad path storage_options] }
  | .ok arrow_table =>
      if to_polars then
        { result := .ok (.polars (pl_from_arrow arrow_table))
          logs := [⟨.info, "Reading Delta table from path: " ++ path⟩,
                   ⟨.info, "Delta table successfully converted to Polars DataFrame."⟩]
          calls := [.deltaTableLoad path storage_options] }
      else
        { result := .ok (.arrow arrow_table)
          logs := [⟨.info, "Reading Delta table from path: " ++ path⟩,
                   ⟨.info, "Delta table successfully read as Arrow Table."⟩]
          calls := [.deltaTableLoad path storage_options] }

/-- The heterogeneous values of the dict returned by
`read_deltalake_metadata`. -/
inductive MetaValue where
  | meta (m : DeltaMetadata)
  | json (j : Json)
  | version (n : Nat)

/-- `DeltaTable(path, storage_options=...)` as used by the metadata reader:
the whole table state, or a raised exception when no Delta table lives at
`path`. -/
def deltaOpen (store : DeltaStore) (path : String) : Except PyError TableState :=
  match store path with
  | none => .error (.exception ("no delta table at " ++ path))
  | some st => if st.versions.isEmpty then .error (.exception ("no delta table at " ++ path)) else .ok st

/-- The current version number of a table state: a table with `n` committed
versions is at version `n - 1` (delta-rs counts from 0). -/
def TableState.version (st : TableState) : Nat := st.versions.length - 1

/-- `read_deltalake_metadata` (delta.py).  Opens the table (outcome is the
`openResult` parameter, instantiated with `deltaOpen` for a concrete lake)
and returns the dict with the three keys `metadata`, `schema` (the schema
serialized to JSON and parsed back) and `version`; any raised exception is
logged at error level and re-raised. -/
def read_deltalake_metadata (path : String) (storage_options : StorageOptions)
    (openResult : Except PyError TableState) : Outcome (List (String × MetaValue)) :=
  match openResult with
  | .error e =>
      { result := .error e
        logs := [⟨.error, "Error reading Delta table metadata: " ++ e.msg⟩]
        calls := [.deltaTableLoad path storage_options] }
  | .ok dt =>
      { result := .ok [("metadata", .meta dt.meta),
                       ("schema", .json (schemaToJson dt.schema)),
                       ("version", .version dt.version)]
        logs := [⟨.info, "Loaded Delta table at version " ++ toString dt.version⟩]
        calls := [.deltaTableLoad path storage_options] }

/-- Value of column `c` in row `r`, `none` for an absent column. -/
def rowGet (r : Row) (c : String) : Option Value :=
  (r.find? (fun kv => kv.1 == c)).map (fun kv => kv.2)

/-- SQL truth of the merge predicate `source.c = target.c` at a source row
`s` and target row `t`: both sides non-NULL and equal. -/
def rowsMatch (c : String) (s t : Row) : Bool :=
  match rowGet s c, rowGet t c with
  | some a, some b => a == b
  | _, _ => false

/-- The `delta_merge_options` dict literally built by `upsert_delta_table`:
`predicate` is the f-string `source.{id_column} = target.{id_column}`, and
the aliases are `source` and `target`. -/
def upsertMergeOptions (id_column : String) : MergeOptions :=
  { predicate := "source." ++ id_column ++ " = target." ++ id_column
    source_alias := "source"
    target_alias := "target" }

/-- Modelled from the spec: the merge predicate as the spec describes it —
an equality comparison on the given column name between the source alias and
the target alias. -/
def specEqPredicate (source_alias target_alias col : String) : String :=
  source_alias ++ "." ++ col ++ " = " ++ target_alias ++ "." ++ col

/-- The three clauses `upsert_delta_table` registers on the merge builder,
in order. -/
def upsertClauses : List MergeClause :=
  [.whenMatchedUpdateAll, .whenNotMatchedInsertAll, .whenNotMatchedBySourceDelete]

/-- Row-level semantics of the delta-rs merge the code configures: clauses
`when_matched_update_all` (a target row matched by a source row is replaced
by that source row — all columns), `when_not_matched_insert_all` (a source
row matching no target row is inserted) and
`when_not_matched_by_source_delete` (a target row matching no source row is
dropped), with match given by the equality predicate on `id_column`. -/
def deltaMerge (id_column : String) (source target : List Row) : List Row :=
  target.filterMap (fun t => source.find? (fun s => rowsMatch id_column s t)) ++
    source.filter (fun s => !(target.any (fun t => rowsMatch id_column s t)))

/-- `upsert_delta_table` (delta.py).  Runs
`df.write_delta(path, mode='merge', delta_merge_options={predicate, source_alias, target_alias}, storage_options=...)`
with the three clauses of `upsertClauses` and executes it against the
current target rows (the `targetResult` parameter: the target table's rows,
or the exception the library raises).  On success the new table contents
are the merge result; any raised exception is logged at error level and
re-raised. -/
def upsert_delta_table (df_with_changes : PolarsDF) (path : String)
    (id_column : String) (storage_options : StorageOptions)
    (targetResult : Except PyError (List Row)) : Outcome (List Row) :=
  match targetResult with
  | .error e =>
      { result := .error e
        logs := [⟨.info, "Initiating upsert operation on Delta table located at path: " ++ path⟩,
                 ⟨.error, "Upsert operation failed for Delta table at path " ++ path ++ " using " ++ id_column ++ " as the unique identifier: " ++ e.msg⟩]
        calls := [.writeDeltaMergeCall path (upsertMergeOptions id_column) upsertClauses storage_options] }
  | .ok target =>
      { result := .ok (deltaMerge id_column df_with_changes.rows target)
        logs := [⟨.info, "Initiating upsert operation on Delta table located at path: " ++ path⟩,
                 ⟨.info, "Upsert operation successfully completed for the Delta table at path: " ++ path⟩]
        calls := [.writeDeltaMergeCall path (upsertMergeOptions id_column) upsertClauses storage_options] }

/-- A boto3 S3 client handle: the configuration `connect_s3` passes to
`boto3.client`. -/
structure S3Client where
  service : String
  aws_access_key_id : String
  aws_secret_access_key : String
  endpoint_url : String
  region_name : String
deriving DecidableEq

/-- `connect_s3` (s3.py).  Calls
`boto3.client('s3', aws_access_key_id=..., aws_secret_access_key=..., endpoint_url=..., region_name=...)`
— construction only, no reachability or credential check — and returns the
client.  `ctorErr` is the exception the SDK raises during construction, if
any: only `BotoCoreError` and `ClientError` are caught (logged at error
level, then re-raised); any other exception propagates unlogged. -/
def connect_s3 (endpoint_url : String) (access_key : String) (secret_key : String)
    (region_name : String) (ctorErr : Option PyError) : Outcome S3Client :=
  match ctorErr with
  | none =>
      { result := .ok ⟨"s3", access_key, secret_key, endpoint_url, region_name⟩
        logs := [⟨.info, "Initializing S3 client..."⟩,
                 ⟨.info, "Successfully connected to S3."⟩]
        calls := [.boto3ClientCall "s3" access_key secret_key endpoint_url region_name] }
  | some e =>
      if e.isBotoOrClient then
        { result := .error e
          logs := [⟨.info, "Initializing S3 client..."⟩,
                   ⟨.error, "Failed to connect to S3: " ++ e.msg⟩]
          calls := [.boto3ClientCall "s3" access_key secret_key endpoint_url region_name] }
      else
        { result := .error e
          logs := [⟨.info, "Initializing S3 client..."⟩]
          calls := [.boto3ClientCall "s3" access_key secret_key endpoint_url region_name] }

/-- Service-side state of the object store: the existing bucket names. -/
abbrev S3State := List String

/-- The response dict of `s3_client.list_buckets()`, reduced to the bucket
names: an association list that may or may not carry a `Buckets` key. -/
abbrev ListBucketsResponse := List (String × List String)

/-- `response.get("Buckets", [])`: the listed names, empty when the key is
absent. -/
def respBuckets (resp : ListBucketsResponse) : List String :=
  (resp.lookup "Buckets").getD []

/-- `ensure_bucket_exists` (s3.py).  Calls `list_buckets()` (response
produced by `listF` from the service state; `listErr` is the exception it
raises, if any), reads `["Buckets"]` with default `[]`, and calls
`create_bucket(Bucket=bucket_name)` exactly when no listed bucket has that
name (`createErr` is the exception creation raises, if any).  The returned
value is the service state afterwards; any raised exception is logged at
error level and re-raised. -/
def ensure_bucket_exists (listF : S3State → ListBucketsResponse)
    (listErr createErr : Option PyError) (st : S3State) (bucket_name : String) :
    Outcome S3State :=
  match listErr with
  | some e =>
      { result := .error e
        logs := [⟨.error, "Failed to check/create bucket: " ++ e.msg⟩]
        calls := [.listBucketsCall] }
  | none =>
      let buckets := respBuckets (listF st)
      if buckets.any (fun b => b == bucket_name) then
        { result := .ok st
          logs := [⟨.info, "Bucket " ++ bucket_name ++ " already exists."⟩]
          calls := [.listBucketsCall] }
      else
        match createErr with
        | some e =>
            { result := .error e
              logs := [⟨.error, "Failed to check/create bucket: " ++ e.msg⟩]
              calls := [.listBucketsCall, .createBucketCall bucket_name] }
        | none =>
            { result := .ok (st ++ [bucket_name])
              logs := [⟨.info, "Bucket " ++ bucket_name ++ " created."⟩]
              calls := [.listBucketsCall, .createBucketCall bucket_name] }

/-! ## Helper lemmas -/

/-- A row matches itself under the equality predicate as soon as its id
column is non-NULL. -/
theorem rowsMatch_self {c : String} {t : Row} (h : (rowGet t c).isSome) :
    rowsMatch c t t = true := by
  cases ht : rowGet t c with
  | none => rw [ht] at h; simp at h
  | some b => simp [rowsMatch, ht]

/-- A successful match forces the target side of the predicate to be
non-NULL. -/
theorem rowsMatch_target_isSome {c : String} {s t : Row}
    (h : rowsMatch c s t = true) : (rowGet t c).isSome := by
  cases hs : rowGet s c <;> cases ht : rowGet t c <;>
    simp [rowsMatch, hs, ht] at h ⊢

/-- Every row of a merge result originates from the change set: matched
targets are replaced by their source row and the remaining rows are
inserted source rows. -/
theorem mem_deltaMerge_subset {c : String} {S T : List Row} {r : Row}
    (h : r ∈ deltaMerge c S T) : r ∈ S := by
  unfold deltaMerge at h
  rcases List.mem_append.mp h with h1 | h2
  · rcases List.mem_filterMap.mp h1 with ⟨t, _, hf⟩
    exact List.mem_of_find?_eq_some hf
  · exact (List.mem_filter.mp h2).1

/-! ## Claims -/

/-- C1: for every change-set dataframe, location and id-column, the upsert
applies the merge with match given by equality on the id-column: every
target row matched by a change-set row is fully overwritten by that
incoming row (stated for an unambiguous match), every change-set row with
no matching target row is inserted, and every existing target row with no
corresponding change-set row (by id) is deleted. -/
theorem upsert_merge_semantics (df_with_changes : PolarsDF) (path id_column : String)
    (storage_options : StorageOptions) (target R : List Row)
    (hR : (upsert_delta_table df_with_changes path id_column storage_options
      (.ok target)).result = .ok R) :
    (∀ t ∈ target, ∀ s ∈ df_with_changes.rows, rowsMatch id_column s t = true →
      (∀ s' ∈ df_with_changes.rows, rowsMatch id_column s' t = true → s' = s) →
      s ∈ R ∧ (t ∈ R → t = s)) ∧
    (∀ s ∈ df_with_changes.rows, (∀ t ∈ target, rowsMatch id_column s t = false) →
      s ∈ R) ∧
    (∀ t ∈ target, (rowGet t id_column).isSome →
      (∀ s ∈ df_with_changes.rows, rowsMatch id_column s t = false) → t ∉ R) := by
  have hR' : deltaMerge id_column df_with_changes.rows target = R := by
    simpa [upsert_delta_table] using hR
  subst hR'
  refine ⟨?_, ?_, ?_⟩
  · intro t ht s hs hm huniq
    obtain ⟨s₂, hf⟩ : ∃ s₂,
        df_with_changes.rows.find? (fun s₁ => rowsMatch id_column s₁ t) = some s₂ := by
      cases hf : df_with_changes.rows.find? (fun s₁ => rowsMatch id_column s₁ t) with
      | some s₂ => exact ⟨s₂, rfl⟩
      | none => exact absurd hm (by simpa using List.find?_eq_none.mp hf s hs)
    have hss : s₂ = s :=
      huniq s₂ (List.mem_of_find?_eq_some hf) (by simpa using List.find?_some hf)
    subst hss
    constructor
    · exact List.mem_append.mpr (Or.inl (List.mem_filterMap.mpr ⟨t, ht, hf⟩))
    · intro htR
      exact huniq t (mem_deltaMerge_subset htR)
        (rowsMatch_self (rowsMatch_target_isSome hm))
  · intro s hs hnone
    refine List.mem_append.mpr (Or.inr (List.mem_filter.mpr ⟨hs, ?_⟩))
    have hany : target.any (fun t => rowsMatch id_column s t) = false :=
      List.any_eq_false.mpr (fun t ht => by simp [hnone t ht])
    simp [hany]
  · intro t ht hsome hnone htR
    have h2 : rowsMatch id_column t t = false := hnone t (mem_deltaMerge_subset htR)
    simp [rowsMatch_self hsome] at h2

/-- Witness for C1: the spec's upsert scenario in miniature — target holds
ids 1 and 2, the change set holds ids 2 (modified) and 4; afterwards id 1
is deleted, id 2 is the change-set row, id 4 is inserted. -/
theorem upsert_merge_semantics_witness :
    (∀ t ∈ [[(("id" : String), (1 : Value))], [("id", 2)]],
      ∀ s ∈ [[(("id" : String), (2 : Value)), ("v", 5)], [("id", 4), ("v", 7)]],
      rowsMatch "id" s t = true →
      (∀ s' ∈ [[(("id" : String), (2 : Value)), ("v", 5)], [("id", 4), ("v", 7)]],
        rowsMatch "id" s' t = true → s' = s) →
      s ∈ [[(("id" : String), (2 : Value)), ("v", 5)], [("id", 4), ("v", 7)]] ∧
        (t ∈ [[(("id" : String), (2 : Value)), ("v", 5)], [("id", 4), ("v", 7)]] → t = s)) ∧
    (∀ s ∈ [[(("id" : String), (2 : Value)), ("v", 5)], [("id", 4), ("v", 7)]],
      (∀ t ∈ [[(("id" : String), (1 : Value))], [("id", 2)]],
        rowsMatch "id" s t = false) →
      s ∈ [[(("id" : String), (2 : Value)), ("v", 5)], [("id", 4), ("v", 7)]]) ∧
    (∀ t ∈ [[(("id" : String), (1 : Value))], [("id", 2)]],
      (rowGet t "id").isSome →
      (∀ s ∈ [[(("id" : String), (2 : Value)), ("v", 5)], [("id", 4), ("v", 7)]],
        rowsMatch "id" s t = false) →
      t ∉ [[(("id" : String), (2 : Value)), ("v", 5)], [("id", 4), ("v", 7)]]) :=
  upsert_merge_semantics ⟨[[("id", 2), ("v", 5)], [("id", 4), ("v", 7)]]⟩ "p" "id" none
    [[("id", 1)], [("id", 2)]] [[("id", 2), ("v", 5)], [("id", 4), ("v", 7)]] rfl

/-- C5: for every id-column name, the merge options the upsert passes to the
underlying merge carry exactly the equality predicate on that column between
the aliases `source` and `target`, and exactly those aliases. -/
theorem upsert_predicate_eq (df_with_changes : PolarsDF) (path id_column : String)
    (storage_options : StorageOptions) (targetResult : Except PyError (List Row)) :
    (upsert_delta_table df_with_changes path id_column storage_options targetResult).calls =
      [.writeDeltaMergeCall path
        { predicate := specEqPredicate "source" "target" id_column
          source_alias := "source"
          target_alias := "target" }
        upsertClauses storage_options] := by
  have hp : "source." ++ id_column ++ " = target." ++ id_column =
      specEqPredicate "source" "target" id_column := by
    show _ = "source" ++ "." ++ id_column ++ " = " ++ "target" ++ "." ++ id_column
    rw [show ("source" : String) ++ "." = "source." from rfl,
        String.append_assoc ("source." ++ id_column) " = " "target",
        String.append_assoc ("source." ++ id_column) (" = " ++ "target") ".",
        show (" = " : String) ++ "target" ++ "." = " = target." from rfl]
  cases targetResult <;> simp [upsert_delta_table, upsertMergeOptions, hp]

/-- C2: for every input to the write operation that is neither an Arrow
table nor a Polars dataframe, the operation raises `ValueError` and the
underlying `write_deltalake` call is never reached (empty external-call
trace). -/
theorem write_invalid_input_no_io (r path : String) (storage_options : StorageOptions)
    (partition_by : Option (List String)) (mode : String)
    (writeResult : Except PyError Unit) :
    (write_table_to_deltalake (.other r) path storage_options partition_by mode
      writeResult).result = .error (.valueError writeInvalidMsg) ∧
    (write_table_to_deltalake (.other r) path storage_options partition_by mode
      writeResult).calls = [] := by
  constructor <;> rfl

/-- C3: writing an Arrow table and writing a Polars dataframe whose
`to_arrow` conversion equals it, to the same fresh location in overwrite
mode, invoke the underlying write with identical arguments and produce
identical results, hence identical read-back. -/
theorem write_polars_arrow_agree (T : ArrowTable) (D : PolarsDF) (path : String)
    (storage_options : StorageOptions) (partition_by : Option (List String))
    (writeResult : Except PyError Unit) (h : D.to_arrow = T) :
    (write_table_to_deltalake (.polars D) path storage_options partition_by
        "overwrite" writeResult).calls =
      (write_table_to_deltalake (.arrow T) path storage_options partition_by
        "overwrite" writeResult).calls ∧
    (write_table_to_deltalake (.polars D) path storage_options partition_by
        "overwrite" writeResult).result =
      (write_table_to_deltalake (.arrow T) path storage_options partition_by
        "overwrite" writeResult).result := by
  subst h
  cases writeResult <;> exact ⟨rfl, rfl⟩

/-- Witness for C3: a one-row table written both ways. -/
theorem write_polars_arrow_agree_witness :
    (write_table_to_deltalake (.polars ⟨[[("id", 1)]]⟩) "loc" none none
        "overwrite" (.ok ())).calls =
      (write_table_to_deltalake (.arrow ⟨[[("id", 1)]]⟩) "loc" none none
        "overwrite" (.ok ())).calls ∧
    (write_table_to_deltalake (.polars ⟨[[("id", 1)]]⟩) "loc" none none
        "overwrite" (.ok ())).result =
      (write_table_to_deltalake (.arrow ⟨[[("id", 1)]]⟩) "loc" none none
        "overwrite" (.ok ())).result :=
  write_polars_arrow_agree ⟨[[("id", 1)]]⟩ ⟨[[("id", 1)]]⟩ "loc" none none (.ok ()) rfl

/-- C6: the read operation loads the latest committed snapshot of the table
at the location as an Arrow table; with the dataframe flag set it returns
exactly `pl.from_arrow` of that snapshot (one conversion), otherwise the
snapshot itself, unconverted. -/
theorem read_table_latest_snapshot (store : DeltaStore) (path : String)
    (storage_options : StorageOptions) (st : TableState) (t : ArrowTable)
    (hst : store path = some st) (hlast : st.versions.getLast? = some t) :
    (read_table_in_deltalake path storage_options false
        (deltaLoad store path)).result = .ok (.arrow t) ∧
    (read_table_in_deltalake path storage_options true
        (deltaLoad store path)).result = .ok (.polars (pl_from_arrow t)) := by
  have hload : deltaLoad store path = .ok t := by
    simp [deltaLoad, hst, hlast]
  constructor <;> simp [read_table_in_deltalake, hload]

/-- Witness for C6: a two-version table; the read returns the second
(latest) version. -/
theorem read_table_latest_snapshot_witness :
    (read_table_in_deltalake "loc" none false
        (deltaLoad (fun p => if p = "loc" then
          some ⟨[⟨[[("id", 1)]]⟩, ⟨[[("id", 2)]]⟩], ⟨"tid", none, none⟩, ⟨[("id", "long")]⟩⟩
          else none) "loc")).result = .ok (.arrow ⟨[[("id", 2)]]⟩) ∧
    (read_table_in_deltalake "loc" none true
        (deltaLoad (fun p => if p = "loc" then
          some ⟨[⟨[[("id", 1)]]⟩, ⟨[[("id", 2)]]⟩], ⟨"tid", none, none⟩, ⟨[("id", "long")]⟩⟩
          else none) "loc")).result = .ok (.polars (pl_from_arrow ⟨[[("id", 2)]]⟩)) :=
  read_table_latest_snapshot
    (fun p => if p = "loc" then
      some ⟨[⟨[[("id", 1)]]⟩, ⟨[[("id", 2)]]⟩], ⟨"tid", none, none⟩, ⟨[("id", "long")]⟩⟩
      else none)
    "loc" none
    ⟨[⟨[[("id", 1)]]⟩, ⟨[[("id", 2)]]⟩], ⟨"tid", none, none⟩, ⟨[("id", "long")]⟩⟩
    ⟨[[("id", 2)]]⟩ rfl rfl

/-- C7: for a location holding a Delta table, the metadata read returns a
mapping with exactly the keys `metadata`, `schema` and `version`, bound to
the table's descriptive metadata object, its schema serialized to a
JSON-compatible structure, and its current version as an integer. -/
theorem read_metadata_shape (store : DeltaStore) (path : String)
    (storage_options : StorageOptions) (st : TableState)
    (hst : store path = some st) (hne : st.versions ≠ []) :
    ∃ m, (read_deltalake_metadata path storage_options
        (deltaOpen store path)).result = .ok m ∧
      m.map Prod.fst = ["metadata", "schema", "version"] ∧
      m.lookup "metadata" = some (.meta st.meta) ∧
      m.lookup "schema" = some (.json (schemaToJson st.schema)) ∧
      m.lookup "version" = some (.version (st.versions.length - 1)) := by
  have hopen : deltaOpen store path = .ok st := by
    simp [deltaOpen, hst, hne]
  refine ⟨[("metadata", .meta st.meta), ("schema", .json (schemaToJson st.schema)),
    ("version", .version st.version)], ?_, ?_, ?_, ?_, ?_⟩
  · simp [read_deltalake_metadata, hopen]
  · rfl
  · rfl
  · rfl
  · rfl

/-- Witness for C7: a concrete one-version table at a concrete location. -/
theorem read_metadata_shape_witness :
    ∃ m, (read_deltalake_metadata "loc" none
        (deltaOpen (fun p => if p = "loc" then
          some ⟨[⟨[[("id", 1)]]⟩], ⟨"tid", none, none⟩, ⟨[("id", "long")]⟩⟩
          else none) "loc")).result = .ok m ∧
      m.map Prod.fst = ["metadata", "schema", "version"] ∧
      m.lookup "metadata" = some (.meta ⟨"tid", none, none⟩) ∧
      m.lookup "schema" = some (.json (schemaToJson ⟨[("id", "long")]⟩)) ∧
      m.lookup "version" = some (.version 0) :=
  read_metadata_shape
    (fun p => if p = "loc" then
      some ⟨[⟨[[("id", 1)]]⟩], ⟨"tid", none, none⟩, ⟨[("id", "long")]⟩⟩
      else none)
    "loc" none ⟨[⟨[[("id", 1)]]⟩], ⟨"tid", none, none⟩, ⟨[("id", "long")]⟩⟩ rfl
    (by simp)

/-- C4 counterexample: a wrapped-SDK failure during connect that is not a
`BotoCoreError`/`ClientError` — here a `ValueError`-like plain exception —
is re-raised unchanged but logged zero times, not once, because
`connect_s3` only catches `(BotoCoreError, ClientError)`. -/
theorem connect_nonboto_error_unlogged :
    (connect_s3 "http://minio" "ak" "sk" "us-east-1"
      (some (.exception "boom"))).result = .error (.exception "boom") ∧
    errorLogCount (connect_s3 "http://minio" "ak" "sk" "us-east-1"
      (some (.exception "boom"))) = 0 := by
  constructor <;> rfl

/-- C4 (amended): every wrapped-library failure in any operation of either
facade is re-raised unchanged (never swallowed or converted to a
default/empty value); the delta-facade operations and ensure-bucket-exists
log the failure exactly once at error level, while connect logs exactly
once for `BotoCoreError`/`ClientError` and zero times for any other
construction error. -/
theorem facade_errors_logged_and_reraised :
    (∀ path so e, (check_if_deltatable path so (.error e)).result = .error e ∧
      errorLogCount (check_if_deltatable path so (.error e)) = 1) ∧
    (∀ t path so pb mode e,
      (write_table_to_deltalake (.arrow t) path so pb mode (.error e)).result = .error e ∧
      errorLogCount (write_table_to_deltalake (.arrow t) path so pb mode (.error e)) = 1) ∧
    (∀ d path so pb mode e,
      (write_table_to_deltalake (.polars d) path so pb mode (.error e)).result = .error e ∧
      errorLogCount (write_table_to_deltalake (.polars d) path so pb mode (.error e)) = 1) ∧
    (∀ path so tp e, (read_table_in_deltalake path so tp (.error e)).result = .error e ∧
      errorLogCount (read_table_in_deltalake path so tp (.error e)) = 1) ∧
    (∀ path so e, (read_deltalake_metadata path so (.error e)).result = .error e ∧
      errorLogCount (read_deltalake_metadata path so (.error e)) = 1) ∧
    (∀ df path idc so e, (upsert_delta_table df path idc so (.error e)).result = .error e ∧
      errorLogCount (upsert_delta_table df path idc so (.error e)) = 1) ∧
    (∀ ep ak sk rn e, (connect_s3 ep ak sk rn (some e)).result = .error e ∧
      errorLogCount (connect_s3 ep ak sk rn (some e)) =
        (if e.isBotoOrClient then 1 else 0)) ∧
    (∀ listF st b e, (ensure_bucket_exists listF (some e) none st b).result = .error e ∧
      errorLogCount (ensure_bucket_exists listF (some e) none st b) = 1) ∧
    (∀ listF st b e, (ensure_bucket_exists listF none (some e) st b).result =
        (if (respBuckets (listF st)).any (fun x => x == b) then .ok st else .error e) ∧
      errorLogCount (ensure_bucket_exists listF none (some e) st b) =
        (if (respBuckets (listF st)).any (fun x => x == b) then 0 else 1)) := by
  refine ⟨?_, ?_, ?_, ?_, ?_, ?_, ?_, ?_, ?_⟩
  · intro path so e; exact ⟨rfl, rfl⟩
  · intro t path so pb mode e
    cases e <;> exact ⟨rfl, rfl⟩
  · intro d path so pb mode e
    cases e <;> exact ⟨rfl, rfl⟩
  · intro path so tp e; exact ⟨rfl, rfl⟩
  · intro path so e; exact ⟨rfl, rfl⟩
  · intro df path idc so e; exact ⟨rfl, rfl⟩
  · intro ep ak sk rn e
    cases e <;> exact ⟨rfl, rfl⟩
  · intro listF st b e; exact ⟨rfl, rfl⟩
  · intro listF st b e
    by_cases h : (respBuckets (listF st)).any (fun x => x == b) = true
    · constructor <;> simp [ensure_bucket_exists, h, errorLogCount]
    · constructor <;> simp [ensure_bucket_exists, h, errorLogCount]

/-- C8: ensure-bucket-exists lists the buckets, creates the named bucket
exactly when it is absent from the listing, and is idempotent: a second
call on the resulting state performs no creation, raises no error, and the
state holds exactly one bucket of that name. -/
theorem ensure_bucket_idempotent (listF : S3State → ListBucketsResponse)
    (st : S3State) (bucket_name : String)
    (hfaith : ∀ s, (listF s).lookup "Buckets" = some s ∨
      ((listF s).lookup "Buckets" = none ∧ s = []))
    (hcount : st.count bucket_name ≤ 1) :
    ∃ st₁, (ensure_bucket_exists listF none none st bucket_name).result = .ok st₁ ∧
      (ensure_bucket_exists listF none none st bucket_name).calls =
        (if bucket_name ∈ st then [ExtCall.listBucketsCall]
         else [ExtCall.listBucketsCall, ExtCall.createBucketCall bucket_name]) ∧
      (ensure_bucket_exists listF none none st₁ bucket_name).result = .ok st₁ ∧
      (ensure_bucket_exists listF none none st₁ bucket_name).calls =
        [ExtCall.listBucketsCall] ∧
      st₁.count bucket_name = 1 := by
  have hresp : ∀ s, respBuckets (listF s) = s := by
    intro s
    rcases hfaith s with h | ⟨h, he⟩
    · simp [respBuckets, h]
    · subst he; simp [respBuckets, h]
  by_cases hb : bucket_name ∈ st
  · have hany : st.any (fun x => x == bucket_name) = true :=
      List.any_eq_true.mpr ⟨bucket_name, hb, by simp⟩
    refine ⟨st, ?_, ?_, ?_, ?_, ?_⟩
    · simp [ensure_bucket_exists, hresp, hany]
    · simp [ensure_bucket_exists, hresp, hany, hb]
    · simp [ensure_bucket_exists, hresp, hany]
    · simp [ensure_bucket_exists, hresp, hany]
    · have := List.count_pos_iff.mpr hb
      omega
  · have hany : st.any (fun x => x == bucket_name) = false :=
      List.any_eq_false.mpr (fun x hx => by
        simp only [beq_iff_eq]
        intro hxeq
        exact hb (hxeq ▸ hx))
    have hmem : bucket_name ∈ st ++ [bucket_name] := by simp
    have hany₂ : (st ++ [bucket_name]).any (fun x => x == bucket_name) = true :=
      List.any_eq_true.mpr ⟨bucket_name, hmem, by simp⟩
    refine ⟨st ++ [bucket_name], ?_, ?_, ?_, ?_, ?_⟩
    · simp [ensure_bucket_exists, hresp, hany]
    · simp [ensure_bucket_exists, hresp, hany, hb]
    · simp [ensure_bucket_exists, hresp, hany₂]
    · simp [ensure_bucket_exists, hresp, hany₂]
    · have h0 : st.count bucket_name = 0 := List.count_eq_zero.mpr hb
      simp [List.count_append, h0]

/-- Witness for C8: a faithful listing over an initially empty service;
ensuring the bucket twice creates it once and leaves one copy. -/
theorem ensure_bucket_idempotent_witness :
    ∃ st₁, (ensure_bucket_exists (fun s => [("Buckets", s)]) none none [] "data").result =
        .ok st₁ ∧
      (ensure_bucket_exists (fun s => [("Buckets", s)]) none none [] "data").calls =
        (if "data" ∈ ([] : List String) then [ExtCall.listBucketsCall]
         else [ExtCall.listBucketsCall, ExtCall.createBucketCall "data"]) ∧
      (ensure_bucket_exists (fun s => [("Buckets", s)]) none none st₁ "data").result =
        .ok st₁ ∧
      (ensure_bucket_exists (fun s => [("Buckets", s)]) none none st₁ "data").calls =
        [ExtCall.listBucketsCall] ∧
      st₁.count "data" = 1 :=
  ensure_bucket_idempotent (fun s => [("Buckets", s)]) [] "data"
    (fun s => Or.inl rfl) (by decide)

/-- C9: connect builds and returns a client configured with exactly the
given endpoint, keys and region, performing only the construction call (no
reachability or credential check appears in the trace); every SDK-level
(`BotoCoreError`/`ClientError`) construction error is logged once at error
level and re-raised. -/
theorem connect_s3_constructs_client :
    (∀ endpoint_url access_key secret_key region_name,
      (connect_s3 endpoint_url access_key secret_key region_name none).result =
        .ok ⟨"s3", access_key, secret_key, endpoint_url, region_name⟩ ∧
      (connect_s3 endpoint_url access_key secret_key region_name none).calls =
        [.boto3ClientCall "s3" access_key secret_key endpoint_url region_name]) ∧
    (∀ endpoint_url access_key secret_key region_name e, e.isBotoOrClient = true →
      (connect_s3 endpoint_url access_key secret_key region_name (some e)).result =
        .error e ∧
      errorLogCount (connect_s3 endpoint_url access_key secret_key region_name
        (some e)) = 1) := by
  constructor
  · intro ep ak sk rn; exact ⟨rfl, rfl⟩
  · intro ep ak sk rn e he
    cases e <;> simp_all [connect_s3, errorLogCount, PyError.isBotoOrClient]

/-- Witness for C9: a concrete `BotoCoreError` during construction is
re-raised and logged once. -/
theorem connect_s3_constructs_client_witness :
    (connect_s3 "http://minio" "ak" "sk" "us-east-1"
      (some (.botoCoreError "bad"))).result = .error (.botoCoreError "bad") ∧
    errorLogCount (connect_s3 "http://minio" "ak" "sk" "us-east-1"
      (some (.botoCoreError "bad"))) = 1 :=
  connect_s3_constructs_client.2 "http://minio" "ak" "sk" "us-east-1"
    (.botoCoreError "bad") rfl

/-- C10: when the bucket-listing response lacks the `Buckets` key entirely,
ensure-bucket-exists treats the listing as empty (no key error is raised)
and proceeds to create the named bucket. -/
theorem ensure_missing_buckets_key (listF : S3State → ListBucketsResponse)
    (st : S3State) (bucket_name : String)
    (hnone : (listF st).lookup "Buckets" = none) :
    (ensure_bucket_exists listF none none st bucket_name).result =
      .ok (st ++ [bucket_name]) ∧
    (ensure_bucket_exists listF none none st bucket_name).calls =
      [ExtCall.listBucketsCall, ExtCall.createBucketCall bucket_name] := by
  have h : respBuckets (listF st) = [] := by simp [respBuckets, hnone]
  constructor <;> simp [ensure_bucket_exists, h]

/-- Witness for C10: a response dict with no `Buckets` key at all; the
bucket is created without a key error. -/
theorem ensure_missing_buckets_key_witness :
    (ensure_bucket_exists (fun _ => []) none none ["other"] "data").result =
      .ok (["other"] ++ ["data"]) ∧
    (ensure_bucket_exists (fun _ => []) none none ["other"] "data").calls =
      [ExtCall.listBucketsCall, ExtCall.createBucketCall "data"] :=
  ensure_missing_buckets_key (fun _ => []) ["other"] "data" rfl
